import Mathlib

/-!
Verification of the layer/frame/face mapping logic of the gimp-vtf plugin
(`src/file-vtf.cpp`).  The plugin translates between a GIMP document's layer
stack and a VTF texture container addressed by (frame, face) coordinates.

The plugin code in `src/file-vtf.cpp` is embedded faithfully.  The external
collaborators (the vtfpp codec library and the GIMP host ABI) are not part of
the repository; their operations are modelled from the specification's
description of the two interfaces (spec sections 4 and 6): the codec container
is a record of the header fields plus the set of written planes, and the host
document is the ordered layer stack.
-/

/-- One layer of a GIMP document: a named 2D bitmap.  `pixels` is the byte
content of the layer's drawable buffer (RGBA8, as both directions of the
plugin normalise through `vtfpp::ImageFormat::RGBA8888`). -/
structure Layer where
  name : String
  width : Nat
  height : Nat
  pixels : List Nat
deriving DecidableEq

/-- A GIMP document.  `layers` is the layer stack in GIMP's list order:
top of the stack first, exactly as `gimp_image_list_layers` returns it. -/
structure GimpImage where
  width : Nat
  height : Nat
  layers : List Layer
deriving DecidableEq

/-- `gimp_image_list_layers` returns the layer stack top-first
(modelled from the spec's host document API: `listLayers(doc)` yields
editor-stack order, top of stack first). -/
def gimp_image_list_layers (image : GimpImage) : List Layer :=
  image.layers

/-- Modelled from the spec: the view of an opened VTF container that
`load_image` consumes — header fields `width`, `height`, `frameCount`,
`faceCount` from `openContainer`, and `getPlane` for
`getImageDataAsRGBA8888(0, frame, face, 0)`.  `getPlane` returns `none` when
the codec-level decode of that plane fails (in C++ the call then yields an
empty byte vector). -/
structure SourceVTF where
  width : Nat
  height : Nat
  frameCount : Nat
  faceCount : Nat
  getPlane : Nat → Nat → Option (List Nat)

/-- Decimal digits of `n` with at least three digits, written with leading
zeros: the value of `printf` format `%.3d` for a nonnegative argument. -/
def pad3 (n : Nat) : String :=
  if n < 10 then "00" ++ toString n
  else if n < 100 then "0" ++ toString n
  else toString n

/-- The name given to the `n`-th produced layer on import:
`g_strdup_printf("Layer %.3d", layer_number + 1)` with `n = layer_number + 1`. -/
def layerName (n : Nat) : String :=
  "Layer " ++ pad3 n

/-- The layer that one iteration of the `load_image` loop body constructs for
frame `fr`, face `fa`, when `layer_number = n`: it is named from the 1-based
counter, has the container's dimensions, and holds the bytes the codec decoded
for that coordinate (the C++ copies `image_data_rgba.size()` bytes into a
fresh buffer; on a failed decode that vector is empty, modelled by
`Option.getD []`). -/
def importedLayer (s : SourceVTF) (fr fa n : Nat) : Layer :=
  { name := layerName (n + 1)
    width := s.width
    height := s.height
    pixels := (s.getPlane fr fa).getD [] }

/-- The inner `for (fa_i = 0; fa_i < face_count; fa_i++)` loop of
`load_image`, with `faces_left` iterations still to run.  Each iteration
builds a layer and inserts it at stack position 0 (`gimp_image_insert_layer
(image, layer, NULL, 0)`), i.e. on top of the stack so far; `n` is the running
`layer_number`. -/
def loadFaceLoop (s : SourceVTF) (fr_i : Nat) :
    Nat → Nat → Nat → List Layer → List Layer × Nat
  | 0, _, n, stack => (stack, n)
  | faces_left + 1, fa_i, n, stack =>
      loadFaceLoop s fr_i faces_left (fa_i + 1) (n + 1)
        (importedLayer s fr_i fa_i n :: stack)

/-- The outer `for (fr_i = 0; fr_i < frame_count; fr_i++)` loop of
`load_image`, with `frames_left` iterations still to run; each iteration runs
the full face loop for frame `fr_i`. -/
def loadFrameLoop (s : SourceVTF) :
    Nat → Nat → Nat → List Layer → List Layer × Nat
  | 0, _, n, stack => (stack, n)
  | frames_left + 1, fr_i, n, stack =>
      let inner := loadFaceLoop s fr_i s.faceCount 0 n stack
      loadFrameLoop s frames_left (fr_i + 1) inner.2 inner.1

/-- `load_image` (file-vtf.cpp): builds a new GIMP document of the container's
size and fills it by iterating frames (outer loop) and faces (inner loop).
Note there is no error path in the C++ function: it unconditionally returns
the constructed image. -/
def load_image (s : SourceVTF) : GimpImage :=
  { width := s.width
    height := s.height
    layers := (loadFrameLoop s s.frameCount 0 0 []).1 }

/-- `gimp_vtf_load` (file-vtf.cpp): calls `load_image` and returns an
execution error only when it produced no image.  Since `load_image` always
returns an image, the error branch (`if (!image) ...`) is unreachable and the
procedure always succeeds with the loaded document. -/
def gimp_vtf_load (s : SourceVTF) : Except Unit GimpImage :=
  Except.ok (load_image s)

/-- The sequence of layers (in creation order) produced by `fl` iterations of
the face loop starting at face `fa` with counter `n`. -/
def faceRun (s : SourceVTF) (fr fa n : Nat) : Nat → List Layer
  | 0 => []
  | fl + 1 => importedLayer s fr fa n :: faceRun s fr (fa + 1) (n + 1) fl

/-- The sequence of layers (in creation order) produced by `fl` iterations of
the frame loop starting at frame `fr` with counter `n`. -/
def frameRun (s : SourceVTF) (fr n : Nat) : Nat → List Layer
  | 0 => []
  | fl + 1 => faceRun s fr 0 n s.faceCount ++ frameRun s (fr + 1) (n + s.faceCount) fl

theorem loadFaceLoop_eq (s : SourceVTF) (fr : Nat) :
    ∀ (fl fa n : Nat) (stack : List Layer),
      loadFaceLoop s fr fl fa n stack =
        ((faceRun s fr fa n fl).reverse ++ stack, n + fl) := by
  intro fl
  induction fl with
  | zero => intro fa n stack; simp [loadFaceLoop, faceRun]
  | succ fl ih =>
      intro fa n stack
      rw [loadFaceLoop, ih]
      simp only [faceRun, List.reverse_cons, List.append_assoc, List.singleton_append,
        Prod.mk.injEq]
      refine ⟨trivial, by omega⟩

theorem loadFrameLoop_eq (s : SourceVTF) :
    ∀ (fl fr n : Nat) (stack : List Layer),
      loadFrameLoop s fl fr n stack =
        ((frameRun s fr n fl).reverse ++ stack, n + fl * s.faceCount) := by
  intro fl
  induction fl with
  | zero => intro fr n stack; simp [loadFrameLoop, frameRun]
  | succ fl ih =>
      intro fr n stack
      rw [loadFrameLoop]
      simp only [loadFaceLoop_eq, ih, frameRun, List.reverse_append, List.append_assoc,
        Prod.mk.injEq]
      refine ⟨trivial, ?_⟩
      rw [Nat.succ_mul]
      omega

theorem faceRun_length (s : SourceVTF) (fr : Nat) :
    ∀ (fl fa n : Nat), (faceRun s fr fa n fl).length = fl := by
  intro fl
  induction fl with
  | zero => intro fa n; rfl
  | succ fl ih => intro fa n; simp [faceRun, ih]

theorem frameRun_length (s : SourceVTF) :
    ∀ (fl fr n : Nat), (frameRun s fr n fl).length = fl * s.faceCount := by
  intro fl
  induction fl with
  | zero => intro fr n; simp [frameRun]
  | succ fl ih =>
      intro fr n
      simp [frameRun, faceRun_length, ih, Nat.succ_mul, Nat.add_comm]

theorem faceRun_getElem? (s : SourceVTF) (fr : Nat) :
    ∀ (fl fa n j : Nat), j < fl →
      (faceRun s fr fa n fl)[j]? = some (importedLayer s fr (fa + j) (n + j)) := by
  intro fl
  induction fl with
  | zero => intro fa n j hj; omega
  | succ fl ih =>
      intro fa n j hj
      cases j with
      | zero => simp [faceRun]
      | succ j =>
          rw [faceRun, List.getElem?_cons_succ, ih _ _ _ (by omega)]
          have h1 : fa + 1 + j = fa + (j + 1) := by omega
          have h2 : n + 1 + j = n + (j + 1) := by omega
          rw [h1, h2]

theorem frameRun_getElem? (s : SourceVTF) (hC : 0 < s.faceCount) :
    ∀ (fl fr n k : Nat), k < fl * s.faceCount →
      (frameRun s fr n fl)[k]? =
        some (importedLayer s (fr + k / s.faceCount) (k % s.faceCount) (n + k)) := by
  intro fl
  induction fl with
  | zero => intro fr n k hk; omega
  | succ fl ih =>
      intro fr n k hk
      rw [frameRun, List.getElem?_append, faceRun_length]
      by_cases hkC : k < s.faceCount
      · rw [if_pos hkC]
        rw [faceRun_getElem? s fr s.faceCount 0 n k hkC]
        rw [Nat.div_eq_of_lt hkC, Nat.mod_eq_of_lt hkC, Nat.zero_add]
        simp
      · have hle : s.faceCount ≤ k := Nat.le_of_not_lt hkC
        rw [if_neg hkC]
        have hk' : k - s.faceCount < fl * s.faceCount := by
          rw [Nat.succ_mul] at hk
          omega
        rw [ih (fr + 1) (n + s.faceCount) (k - s.faceCount) hk']
        have hdiv : (k - s.faceCount) / s.faceCount + 1 = k / s.faceCount := by
          have h1 : k - s.faceCount + s.faceCount = k := Nat.sub_add_cancel hle
          have h2 := Nat.add_div_right (k - s.faceCount) hC
          rw [h1] at h2
          omega
        have hmod : (k - s.faceCount) % s.faceCount = k % s.faceCount := by
          have h1 : k - s.faceCount + s.faceCount = k := Nat.sub_add_cancel hle
          have h2 := Nat.add_mod_right (k - s.faceCount) s.faceCount
          rw [h1] at h2
          omega
        have harg1 : fr + 1 + (k - s.faceCount) / s.faceCount = fr + k / s.faceCount := by
          omega
        have harg2 : n + s.faceCount + (k - s.faceCount) = n + k := by
          omega
        rw [harg1, harg2, hmod]

/-- The layer stack `load_image` produces is the (reversed, because each layer
is inserted at stack position 0) frame-major, face-minor enumeration. -/
theorem load_image_layers (s : SourceVTF) :
    (load_image s).layers = (frameRun s 0 0 s.frameCount).reverse := by
  simp [load_image, loadFrameLoop_eq]

theorem load_image_length (s : SourceVTF) :
    (load_image s).layers.length = s.frameCount * s.faceCount := by
  rw [load_image_layers, List.length_reverse, frameRun_length]

theorem load_image_bottomUp (s : SourceVTF) (hC : 0 < s.faceCount)
    (k : Nat) (hk : k < s.frameCount * s.faceCount) :
    (load_image s).layers.reverse[k]? =
      some (importedLayer s (k / s.faceCount) (k % s.faceCount) k) := by
  rw [load_image_layers, List.reverse_reverse,
    frameRun_getElem? s hC s.frameCount 0 0 k hk]
  simp

/-- The three choices of the `image_type` export argument
(`gimp_vtf_create_procedure`: Standard = 0, Environment Map = 1,
Volumetric Texture = 2). -/
inductive VTFImageType where
  | TYPE_STANDARD
  | TYPE_ENVMAP
  | TYPE_VOLUMETRIC
deriving DecidableEq

/-- The export arguments `export_image` reads from the procedure config.
`version` is the minor VTF version (the choice id).  `mipmap_filter` is the
filter choice id, with `-1` the special "don't generate mipmaps" value.
`image_format` and `resize_method` are the codec enumeration values, opaque
to the mapper.  The C `double bumpmap_scale` is a pass-through value never
computed with; it is modelled as an abstract integer. -/
structure ExportConfig where
  version : Int
  image_format : Int
  image_type : VTFImageType
  mipmap_filter : Int
  resize_method : Int
  thumbnail_enabled : Bool
  merge_layers_enabled : Bool
  recompute_reflectivity_enabled : Bool
  bumpmap_scale : Int
deriving DecidableEq

/-- Modelled from the spec: the state of a vtfpp VTF container being built
for export.  Header fields mirror the codec setters `export_image` calls;
`planes` records the successfully written image planes as
`((frame, face), bytes)` in write order; `mipsComputedWith` records whether
(and with which filter) `computeMips` was invoked. -/
structure VTF where
  versionMajor : Int := 7
  versionMinor : Int := 4
  srgb : Bool := false
  resizeMethods : Int × Int := (0, 0)
  width : Nat := 0
  height : Nat := 0
  frameCount : Nat := 1
  faceCount : Nat := 1
  mipCount : Nat := 1
  planes : List ((Nat × Nat) × List Nat) := []
  mipsComputedWith : Option Int := none
  thumbnail : Bool := false
  reflectivityComputed : Bool := false
  transparencyFlagsComputed : Bool := false
  bumpMapScale : Int := 0
  format : Int := 0
deriving DecidableEq

/-- Modelled from the spec: `setVersion(major, minor)`. -/
def VTF.setVersion (v : VTF) (major minor : Int) : VTF :=
  { v with versionMajor := major, versionMinor := minor }

/-- Modelled from the spec: `addFlags(FLAG_SRGB)` (the only flag the plugin
adds). -/
def VTF.addFlagSRGB (v : VTF) : VTF :=
  { v with srgb := true }

/-- Modelled from the spec: `setImageResizeMethods(widthMethod, heightMethod)`. -/
def VTF.setImageResizeMethods (v : VTF) (wMethod hMethod : Int) : VTF :=
  { v with resizeMethods := (wMethod, hMethod) }

/-- Modelled from the spec: `setSize(width, height, filter)`.  Any rounding of
non-power-of-two sizes is internal to the codec and out of scope; the stored
dimensions are the ones passed in. -/
def VTF.setSize (v : VTF) (w h : Nat) : VTF :=
  { v with width := w, height := h }

/-- Modelled from the spec: `setFrameCount(n)`. -/
def VTF.setFrameCount (v : VTF) (n : Nat) : VTF :=
  { v with frameCount := n }

/-- Modelled from the spec: `setFaceCount(isCubeMap, hasSphereMap)` — a
cubemap container has 6 faces, or 7 when the spheremap correction face is
included; a non-cubemap container has 1. -/
def VTF.setFaceCount (v : VTF) (isCubeMap hasSphereMap : Bool) : VTF :=
  { v with faceCount := if isCubeMap then (if hasSphereMap then 7 else 6) else 1 }

/-- Modelled from the spec: `setImage(bytes, format, w, h, filter, mip, frame,
face, slice)` writes one plane at `(frame, face)` and reports success; on
failure the container is unchanged.  `ok` is the codec's verdict for this
call. -/
def VTF.setImage (v : VTF) (bytes : List Nat) (frame face : Nat) (ok : Bool) : VTF :=
  if ok then { v with planes := v.planes ++ [((frame, face), bytes)] } else v

/-- Modelled from the spec: `setBumpMapScale`. -/
def VTF.setBumpMapScale (v : VTF) (scale : Int) : VTF :=
  { v with bumpMapScale := scale }

/-- Modelled from the spec: `setMipCount`. -/
def VTF.setMipCount (v : VTF) (n : Nat) : VTF :=
  { v with mipCount := n }

/-- Modelled from the spec: `computeMips(filter)` generates the mipmap chain
with the given filter. -/
def VTF.computeMips (v : VTF) (filter : Int) : VTF :=
  { v with mipsComputedWith := some filter }

/-- Modelled from the spec: `computeThumbnail(filter)`. -/
def VTF.computeThumbnail (v : VTF) : VTF :=
  { v with thumbnail := true }

/-- Modelled from the spec: `removeThumbnail()`. -/
def VTF.removeThumbnail (v : VTF) : VTF :=
  { v with thumbnail := false }

/-- Modelled from the spec: `computeReflectivity()`. -/
def VTF.computeReflectivity (v : VTF) : VTF :=
  { v with reflectivityComputed := true }

/-- Modelled from the spec: `computeTransparencyFlags()`. -/
def VTF.computeTransparencyFlags (v : VTF) : VTF :=
  { v with transparencyFlagsComputed := true }

/-- Modelled from the spec: `setFormat(format, filter)` converts the stored
data to the chosen output pixel format. -/
def VTF.setFormat (v : VTF) (format : Int) : VTF :=
  { v with format := format }

/-- The external outcomes an export run depends on, modelled from the spec's
codec API: whether the `setImage` call for the layer at a given index
succeeds, whether the final `bake` to disk succeeds, and the codec's
`getRecommendedMipCountForDims(format, width, height)`. -/
structure ExportEnv where
  setImageOk : Nat → Bool
  bakeOk : Bool
  recommendedMips : Int → Nat → Nat → Nat

/-- One `setImage` call made by the export loop: the payload bytes, the
`(frame, face)` coordinate passed (after the C narrowing conversions), and the
codec's success verdict. -/
structure SetImageCall where
  bytes : List Nat
  frame : Nat
  face : Nat
  ok : Bool
deriving DecidableEq

/-- The result of one `export_image` run: the overall success flag (the value
`bake` returned), the final container state that was baked, the indices for
which a `g_warning` was emitted, and the trace of `setImage` calls made. -/
structure ExportResult where
  success : Bool
  vtf : VTF
  warnings : List Nat
  calls : List SetImageCall
deriving DecidableEq

/-- The `for (layer_index = 0; ...)` loop of `export_image`.  For each layer
the C++ declares `uint16_t frame_index = 0; uint8_t face_index = 0;` and
assigns `layer_index` to one of them depending on the texture type, so the
frame coordinate is taken modulo 2^16 and the face coordinate modulo 2^8.  A
failed `setImage` is recorded as a warning (`g_warning`; the early return is
commented out in the source) and the loop continues. -/
def exportLoop (env : ExportEnv) (ty : VTFImageType) :
    List Layer → Nat → VTF → List Nat → List SetImageCall →
      VTF × List Nat × List SetImageCall
  | [], _, v, ws, cs => (v, ws, cs)
  | l :: rest, layer_index, v, ws, cs =>
      let frame_index := if ty = VTFImageType.TYPE_STANDARD then layer_index % 65536 else 0
      let face_index := if ty = VTFImageType.TYPE_STANDARD then 0 else layer_index % 256
      let ok := env.setImageOk layer_index
      exportLoop env ty rest (layer_index + 1)
        (v.setImage l.pixels frame_index face_index ok)
        (if ok then ws else ws ++ [layer_index])
        (cs ++ [{ bytes := l.pixels, frame := frame_index, face := face_index, ok := ok }])

/-- `export_image` (file-vtf.cpp): reads the config, takes the image size from
the first drawable (`drawables->data`, a NULL dereference when the list is
empty, modelled as `none`), sets up the container header, drives the frame
count (Standard) or the face count (otherwise) from the layer count, runs the
per-layer `setImage` loop, applies the mip / thumbnail / reflectivity /
transparency / format steps, and returns the result of `bake`.  The
`merge_layers_enabled` option is read from the config but never used. -/
def export_image (env : ExportEnv) (drawables : List Layer) (cfg : ExportConfig) :
    Option ExportResult :=
  match drawables with
  | [] => none
  | drawable_reference :: _ =>
      let width := drawable_reference.width
      let height := drawable_reference.height
      let should_compute_mips := cfg.mipmap_filter != -1
      let v0 := ((((({} : VTF).setVersion 7 cfg.version).addFlagSRGB).setImageResizeMethods
        cfg.resize_method cfg.resize_method).setSize width height)
      let layer_count := drawables.length
      let v1 := if cfg.image_type = VTFImageType.TYPE_STANDARD then
          v0.setFrameCount layer_count
        else
          v0.setFaceCount true (decide (7 ≤ layer_count))
      let loopOut := exportLoop env cfg.image_type drawables 0 v1 [] []
      let v2 := loopOut.1
      let warnings := loopOut.2.1
      let calls := loopOut.2.2
      let v3 := v2.setBumpMapScale cfg.bumpmap_scale
      let v4 := if should_compute_mips then
          (v3.setMipCount (env.recommendedMips cfg.image_format width height)).computeMips
            cfg.mipmap_filter
        else
          v3.setMipCount 1
      let v5 := if cfg.thumbnail_enabled then v4.computeThumbnail else v4.removeThumbnail
      let v6 := if cfg.recompute_reflectivity_enabled then v5.computeReflectivity else v5
      let v7 := v6.computeTransparencyFlags
      let v8 := v7.setFormat cfg.image_format
      some { success := env.bakeOk, vtf := v8, warnings := warnings, calls := calls }

/-- GIMP procedure result statuses relevant to the plugin. -/
inductive GimpPDBStatusType where
  | GIMP_PDB_SUCCESS
  | GIMP_PDB_EXECUTION_ERROR
  | GIMP_PDB_CANCEL
deriving DecidableEq

/-- `gimp_vtf_export` (file-vtf.cpp), noninteractive path: reverses the
top-first layer list (`g_list_reverse(gimp_image_list_layers(image))`), then
reads `drawables->data` for the alpha check — a NULL dereference when the
document has no layers, modelled as `none` — and calls `export_image`,
turning a failed export into `GIMP_PDB_EXECUTION_ERROR`. -/
def gimp_vtf_export (env : ExportEnv) (image : GimpImage) (cfg : ExportConfig) :
    Option (GimpPDBStatusType × ExportResult) :=
  let drawables := (gimp_image_list_layers image).reverse
  match drawables with
  | [] => none
  | _ :: _ =>
      match export_image env drawables cfg with
      | none => none
      | some r =>
          some (if r.success then GimpPDBStatusType.GIMP_PDB_SUCCESS
            else GimpPDBStatusType.GIMP_PDB_EXECUTION_ERROR, r)

/-- Modelled from the spec: re-opening a baked container for import exposes
its header fields and, for each coordinate, the most recently written plane
(`decodePlane` fails — `none` — at a coordinate no plane was written to). -/
def VTF.toSource (v : VTF) : SourceVTF :=
  { width := v.width
    height := v.height
    frameCount := v.frameCount
    faceCount := v.faceCount
    getPlane := fun fr fa =>
      (v.planes.reverse.find? (fun p => p.1.1 = fr && p.1.2 = fa)).map Prod.snd }

/-- The `setImage` call the export loop makes for the layer at index `i`:
Standard texture types place it at frame `i` (as a 16-bit value), every other
type at face `i` (as an 8-bit value). -/
def mkCall (env : ExportEnv) (ty : VTFImageType) (i : Nat) (l : Layer) : SetImageCall :=
  { bytes := l.pixels
    frame := if ty = VTFImageType.TYPE_STANDARD then i % 65536 else 0
    face := if ty = VTFImageType.TYPE_STANDARD then 0 else i % 256
    ok := env.setImageOk i }

/-- The calls the export loop makes for the given layers, the first layer
having index `i`. -/
def callsOf (env : ExportEnv) (ty : VTFImageType) : Nat → List Layer → List SetImageCall
  | _, [] => []
  | i, l :: rest => mkCall env ty i l :: callsOf env ty (i + 1) rest

/-- The layer indices the export loop warns about (failed `setImage` calls),
the first layer having index `i`. -/
def warnOf (env : ExportEnv) : Nat → List Layer → List Nat
  | _, [] => []
  | i, _ :: rest =>
      if env.setImageOk i then warnOf env (i + 1) rest
      else i :: warnOf env (i + 1) rest

/-- The planes a sequence of `setImage` calls leaves in the container: the
successful calls, in order. -/
def succPlanes (cs : List SetImageCall) : List ((Nat × Nat) × List Nat) :=
  cs.filterMap (fun c => if c.ok then some ((c.frame, c.face), c.bytes) else none)

theorem exportLoop_eq (env : ExportEnv) (ty : VTFImageType) :
    ∀ (ls : List Layer) (i : Nat) (v : VTF) (ws : List Nat) (cs : List SetImageCall),
      exportLoop env ty ls i v ws cs =
        ({ v with planes := v.planes ++ succPlanes (callsOf env ty i ls) },
          ws ++ warnOf env i ls,
          cs ++ callsOf env ty i ls) := by
  intro ls
  induction ls with
  | nil => intro i v ws cs; simp [exportLoop, callsOf, warnOf, succPlanes]
  | cons l rest ih =>
      intro i v ws cs
      rw [exportLoop, ih]
      cases hok : env.setImageOk i with
      | false =>
          simp only [callsOf, warnOf, succPlanes, hok, mkCall, VTF.setImage,
            List.filterMap_cons, if_neg (Bool.false_ne_true), Bool.false_eq_true,
            if_false, List.append_assoc, List.singleton_append, Prod.mk.injEq]
      | true =>
          simp only [callsOf, warnOf, succPlanes, hok, mkCall, VTF.setImage,
            List.filterMap_cons, if_true, List.append_assoc, List.singleton_append,
            Prod.mk.injEq]

theorem callsOf_length (env : ExportEnv) (ty : VTFImageType) :
    ∀ (ls : List Layer) (i : Nat), (callsOf env ty i ls).length = ls.length := by
  intro ls
  induction ls with
  | nil => intro i; rfl
  | cons l rest ih => intro i; simp [callsOf, ih]

theorem callsOf_getElem? (env : ExportEnv) (ty : VTFImageType) :
    ∀ (ls : List Layer) (i k : Nat),
      (callsOf env ty i ls)[k]? = ls[k]?.map (fun l => mkCall env ty (i + k) l) := by
  intro ls
  induction ls with
  | nil => intro i k; simp [callsOf]
  | cons l rest ih =>
      intro i k
      cases k with
      | zero => simp [callsOf]
      | succ k =>
          rw [callsOf, List.getElem?_cons_succ, List.getElem?_cons_succ, ih]
          have h : i + 1 + k = i + (k + 1) := by omega
          rw [h]

theorem warnOf_eq_filter (env : ExportEnv) :
    ∀ (ls : List Layer) (i : Nat),
      warnOf env i ls =
        ((List.range ls.length).map (fun k => i + k)).filter
          (fun j => !env.setImageOk j) := by
  intro ls
  induction ls with
  | nil => intro i; rfl
  | cons l rest ih =>
      intro i
      rw [warnOf, ih]
      simp only [List.length_cons]
      rw [List.range_succ_eq_map]
      simp only [List.map_cons, List.map_map, List.filter_cons, Nat.add_zero]
      have hmap : ((List.range rest.length).map ((fun k => i + k) ∘ Nat.succ)) =
          (List.range rest.length).map (fun k => i + 1 + k) := by
        apply List.map_congr_left
        intro a _
        simp [Function.comp]
        omega
      rw [hmap]
      cases hok : env.setImageOk i <;> simp

theorem exportLoop_type_irrelevant (env : ExportEnv) :
    ∀ (ls : List Layer) (i : Nat) (v : VTF) (ws : List Nat) (cs : List SetImageCall),
      exportLoop env VTFImageType.TYPE_VOLUMETRIC ls i v ws cs =
        exportLoop env VTFImageType.TYPE_ENVMAP ls i v ws cs := by
  intro ls
  induction ls with
  | nil => intro i v ws cs; rfl
  | cons l rest ih =>
      intro i v ws cs
      rw [exportLoop, exportLoop]
      simp only [reduceCtorEq, if_false, reduceIte]
      exact ih _ _ _ _

/-- Closed form of the result of a (non-crashing) `export_image` run on the
layer list `l :: rest`: the baked container's header fields, the planes
written by the loop, the warning list and the call trace, all as functions of
the inputs. -/
def exportOutcome (env : ExportEnv) (cfg : ExportConfig) (l : Layer)
    (rest : List Layer) : ExportResult :=
  { success := env.bakeOk
    vtf := { versionMajor := 7
             versionMinor := cfg.version
             srgb := true
             resizeMethods := (cfg.resize_method, cfg.resize_method)
             width := l.width
             height := l.height
             frameCount :=
               if cfg.image_type = VTFImageType.TYPE_STANDARD then
                 (l :: rest).length
               else 1
             faceCount :=
               if cfg.image_type = VTFImageType.TYPE_STANDARD then 1
               else if 7 ≤ (l :: rest).length then 7 else 6
             mipCount :=
               if cfg.mipmap_filter = -1 then 1
               else env.recommendedMips cfg.image_format l.width l.height
             planes := succPlanes (callsOf env cfg.image_type 0 (l :: rest))
             mipsComputedWith :=
               if cfg.mipmap_filter = -1 then none else some cfg.mipmap_filter
             thumbnail := cfg.thumbnail_enabled
             reflectivityComputed := cfg.recompute_reflectivity_enabled
             transparencyFlagsComputed := true
             bumpMapScale := cfg.bumpmap_scale
             format := cfg.image_format }
    warnings := warnOf env 0 (l :: rest)
    calls := callsOf env cfg.image_type 0 (l :: rest) }

/-- A non-empty layer list makes `export_image` produce exactly
`exportOutcome`. -/
theorem export_image_eq (env : ExportEnv) (cfg : ExportConfig) (l : Layer)
    (rest : List Layer) :
    export_image env (l :: rest) cfg = some (exportOutcome env cfg l rest) := by
  by_cases hty : cfg.image_type = VTFImageType.TYPE_STANDARD <;>
    by_cases hm : cfg.mipmap_filter = -1 <;>
      cases hth : cfg.thumbnail_enabled <;>
        cases hre : cfg.recompute_reflectivity_enabled <;>
          simp [export_image, exportOutcome, exportLoop_eq, hty, hm, hth, hre, bne_iff_ne,
            VTF.setVersion, VTF.addFlagSRGB, VTF.setImageResizeMethods, VTF.setSize,
            VTF.setFrameCount, VTF.setFaceCount, VTF.setBumpMapScale, VTF.setMipCount,
            VTF.computeMips, VTF.computeThumbnail, VTF.removeThumbnail,
            VTF.computeReflectivity, VTF.computeTransparencyFlags, VTF.setFormat]

/-- When the document's layer stack reverses to `l :: rest`, `gimp_vtf_export`
runs `export_image` on that reversed list and maps its boolean result to a
PDB status. -/
theorem gimp_vtf_export_eq (env : ExportEnv) (cfg : ExportConfig)
    (image : GimpImage) (l : Layer) (rest : List Layer)
    (hrev : image.layers.reverse = l :: rest) :
    gimp_vtf_export env image cfg =
      some (if env.bakeOk then GimpPDBStatusType.GIMP_PDB_SUCCESS
        else GimpPDBStatusType.GIMP_PDB_EXECUTION_ERROR,
        exportOutcome env cfg l rest) := by
  simp only [gimp_vtf_export, gimp_image_list_layers, hrev, export_image_eq, exportOutcome]

/-- `mkCall` does not distinguish the two non-Standard texture types. -/
theorem callsOf_volumetric_eq_envmap (env : ExportEnv) :
    ∀ (ls : List Layer) (i : Nat),
      callsOf env VTFImageType.TYPE_VOLUMETRIC i ls =
        callsOf env VTFImageType.TYPE_ENVMAP i ls := by
  intro ls
  induction ls with
  | nil => intro i; rfl
  | cons l rest ih =>
      intro i
      rw [callsOf, callsOf, ih]
      rfl

/-- A concrete 1-by-1 layer. -/
def sampleLayer : Layer :=
  { name := "Background", width := 1, height := 1, pixels := [10, 20, 30, 40] }

/-- A second concrete 1-by-1 layer with different content. -/
def sampleLayer2 : Layer :=
  { name := "Layer 2", width := 1, height := 1, pixels := [50, 60, 70, 80] }

/-- A codec environment in which every call succeeds. -/
def allOkEnv : ExportEnv :=
  { setImageOk := fun _ => true, bakeOk := true, recommendedMips := fun _ _ _ => 1 }

/-- A codec environment in which the `setImage` call for layer index 1 fails
and everything else succeeds. -/
def oneFailEnv : ExportEnv :=
  { setImageOk := fun i => i != 1, bakeOk := true, recommendedMips := fun _ _ _ => 3 }

/-- A concrete Standard-type export configuration (mipmaps disabled). -/
def stdConfig : ExportConfig :=
  { version := 4
    image_format := 13
    image_type := VTFImageType.TYPE_STANDARD
    mipmap_filter := -1
    resize_method := 0
    thumbnail_enabled := true
    merge_layers_enabled := false
    recompute_reflectivity_enabled := true
    bumpmap_scale := 1 }

/-- The same configuration with the Environment Map texture type. -/
def envmapConfig : ExportConfig :=
  { stdConfig with image_type := VTFImageType.TYPE_ENVMAP }

/-- The same configuration with the Volumetric texture type. -/
def volumetricConfig : ExportConfig :=
  { stdConfig with image_type := VTFImageType.TYPE_VOLUMETRIC }

/-- The same Standard configuration with the Kaiser mipmap filter enabled. -/
def kaiserConfig : ExportConfig :=
  { stdConfig with mipmap_filter := 8 }

/-- A concrete document layer list with 257 layers. -/
def layers257 : List Layer :=
  sampleLayer :: List.replicate 256 sampleLayer

/-- A concrete 2-frame, 6-face imported container whose plane at
`(frame, face)` decodes to the two-byte list `[frame, face]`. -/
def sampleSource : SourceVTF :=
  { width := 2
    height := 2
    frameCount := 2
    faceCount := 6
    getPlane := fun fr fa => some [fr, fa] }

/-- A concrete 1-frame, 1-face container whose only plane fails to decode. -/
def failingSource : SourceVTF :=
  { width := 1
    height := 1
    frameCount := 1
    faceCount := 1
    getPlane := fun _ _ => none }

/-- A concrete document with no layers. -/
def emptyImage : GimpImage :=
  { width := 4, height := 4, layers := [] }

/-- C2: for every container with frame count F ≥ 1 and face count
C ∈ {1, 6, 7}, import produces exactly F × C layers, enumerated frame-major
and face-minor (layer k, counted bottom-up in the produced stack, holds the
plane of frame k / C, face k % C), and each layer is named from the 1-based
sequential counter k + 1, zero-padded. -/
theorem C2_import_layer_enumeration (s : SourceVTF)
    (_hF : 1 ≤ s.frameCount)
    (hC : s.faceCount = 1 ∨ s.faceCount = 6 ∨ s.faceCount = 7) :
    (load_image s).layers.length = s.frameCount * s.faceCount ∧
    ∀ k, k < s.frameCount * s.faceCount →
      (load_image s).layers.reverse[k]? =
        some { name := layerName (k + 1)
               width := s.width
               height := s.height
               pixels := (s.getPlane (k / s.faceCount) (k % s.faceCount)).getD [] } := by
  have hC' : 0 < s.faceCount := by rcases hC with h | h | h <;> omega
  refine ⟨load_image_length s, ?_⟩
  intro k hk
  rw [load_image_bottomUp s hC' k hk]
  rfl

theorem C2_import_layer_enumeration_witness :
    1 ≤ sampleSource.frameCount ∧
    (sampleSource.faceCount = 1 ∨ sampleSource.faceCount = 6 ∨
      sampleSource.faceCount = 7) ∧
    ((load_image sampleSource).layers.length =
        sampleSource.frameCount * sampleSource.faceCount ∧
      ∀ k, k < sampleSource.frameCount * sampleSource.faceCount →
        (load_image sampleSource).layers.reverse[k]? =
          some { name := layerName (k + 1)
                 width := sampleSource.width
                 height := sampleSource.height
                 pixels := (sampleSource.getPlane (k / sampleSource.faceCount)
                   (k % sampleSource.faceCount)).getD [] }) :=
  ⟨by decide, by decide,
    C2_import_layer_enumeration sampleSource (by decide) (by decide)⟩

/-- C4: the claim says a failed plane decode must abort the whole import with
no document returned.  The code has no per-plane error check at all
(`load_image` ignores the decode result's emptiness; the `// TODO: error
handling here` comment marks the missing path), so a container whose only
plane fails to decode still yields a successfully returned one-layer
document. -/
theorem C4_import_decode_failure_still_returns_document :
    failingSource.getPlane 0 0 = none ∧
    (gimp_vtf_load failingSource).toOption.map (fun img => img.layers.length) =
      some 1 := by
  exact ⟨rfl, rfl⟩

/-- C6: the claim says a zero-layer export is rejected and surfaced as an
error before any codec call.  The code performs no such check: with an empty
layer list, `gimp_vtf_export` dereferences `drawables->data` on a NULL list
(modelled as the crash value `none`) instead of returning an error status. -/
theorem C6_zero_layer_export_crashes :
    emptyImage.layers = [] ∧
    gimp_vtf_export allOkEnv emptyImage stdConfig = none := by
  exact ⟨rfl, rfl⟩

/-- C9: `merge_layers_enabled` is read from the config but never used, so two
export runs whose inputs differ only in that flag produce identical results
(container, warnings, call trace and success alike). -/
theorem C9_merge_layers_no_effect (env : ExportEnv) (drawables : List Layer)
    (cfg : ExportConfig) (b1 b2 : Bool) :
    export_image env drawables { cfg with merge_layers_enabled := b1 } =
      export_image env drawables { cfg with merge_layers_enabled := b2 } := by
  cases drawables with
  | nil => rfl
  | cons l rest =>
      rw [export_image_eq, export_image_eq]
      rfl

/-- C10: with the special "none" mipmap filter value (-1) the exported
container's mip count is exactly 1 and `computeMips` is never invoked; with
any other filter the mip count is the codec's recommended count for the
chosen output format and the image dimensions, and the mipmaps are computed
with the chosen filter. -/
theorem C10_mipmap_policy (env : ExportEnv) (cfg : ExportConfig) (l : Layer)
    (rest : List Layer) :
    ∃ r, export_image env (l :: rest) cfg = some r ∧
      (cfg.mipmap_filter = -1 →
        r.vtf.mipCount = 1 ∧ r.vtf.mipsComputedWith = none) ∧
      (cfg.mipmap_filter ≠ -1 →
        r.vtf.mipCount = env.recommendedMips cfg.image_format l.width l.height ∧
        r.vtf.mipsComputedWith = some cfg.mipmap_filter) := by
  refine ⟨_, export_image_eq env cfg l rest, ?_, ?_⟩
  · intro hm
    simp [exportOutcome, hm]
  · intro hm
    simp [exportOutcome, hm]

theorem C10_mipmap_policy_witness :
    (∃ r, export_image allOkEnv [sampleLayer] stdConfig = some r ∧
      r.vtf.mipCount = 1 ∧ r.vtf.mipsComputedWith = none) ∧
    (∃ r, export_image allOkEnv [sampleLayer] kaiserConfig = some r ∧
      r.vtf.mipCount = allOkEnv.recommendedMips kaiserConfig.image_format
        sampleLayer.width sampleLayer.height ∧
      r.vtf.mipsComputedWith = some kaiserConfig.mipmap_filter) := by
  constructor
  · obtain ⟨r, hr, h1, _⟩ := C10_mipmap_policy allOkEnv stdConfig sampleLayer []
    exact ⟨r, hr, h1 rfl⟩
  · obtain ⟨r, hr, _, h2⟩ := C10_mipmap_policy allOkEnv kaiserConfig sampleLayer []
    exact ⟨r, hr, h2 (by decide)⟩

/-- C5: during export every layer is attempted exactly once (one `setImage`
call per layer, with the codec's verdict recorded per call); the indices of
failed calls are exactly the warnings emitted; the container holds the planes
of precisely the successful calls; and the overall result equals the outcome
of the final `bake` step alone, regardless of per-layer failures. -/
theorem C5_export_per_layer_best_effort (env : ExportEnv) (cfg : ExportConfig)
    (l : Layer) (rest : List Layer) :
    ∃ r, export_image env (l :: rest) cfg = some r ∧
      r.calls.length = (l :: rest).length ∧
      (∀ i, i < (l :: rest).length →
        r.calls[i]?.map SetImageCall.ok = some (env.setImageOk i)) ∧
      r.warnings =
        (List.range (l :: rest).length).filter (fun j => !env.setImageOk j) ∧
      r.vtf.planes = succPlanes r.calls ∧
      r.success = env.bakeOk := by
  refine ⟨_, export_image_eq env cfg l rest, ?_, ?_, ?_, ?_, ?_⟩
  · exact callsOf_length env cfg.image_type (l :: rest) 0
  · intro i hi
    show (callsOf env cfg.image_type 0 (l :: rest))[i]?.map SetImageCall.ok = _
    rw [callsOf_getElem?, List.getElem?_eq_getElem hi]
    simp [mkCall]
  · show warnOf env 0 (l :: rest) = _
    rw [warnOf_eq_filter]
    simp
  · rfl
  · rfl

theorem C5_export_per_layer_best_effort_witness :
    ∃ r, export_image oneFailEnv [sampleLayer, sampleLayer2, sampleLayer]
        stdConfig = some r ∧
      r.calls.length = 3 ∧
      r.calls[1]?.map SetImageCall.ok = some (oneFailEnv.setImageOk 1) ∧
      r.warnings = (List.range 3).filter (fun j => !oneFailEnv.setImageOk j) ∧
      r.vtf.planes = succPlanes r.calls ∧
      r.success = oneFailEnv.bakeOk := by
  obtain ⟨r, hr, hlen, hok, hw, hp, hs⟩ :=
    C5_export_per_layer_best_effort oneFailEnv stdConfig sampleLayer
      [sampleLayer2, sampleLayer]
  exact ⟨r, hr, hlen, hok 1 (by decide), hw, hp, hs⟩

/-- C7: on export the host's top-first layer list is reversed before the
mapping loop runs, so the i-th `setImage` call carries the pixels of the
layer at stack position length − 1 − i (the i-th layer counted bottom-up). -/
theorem C7_export_reverses_layer_order (env : ExportEnv) (cfg : ExportConfig)
    (image : GimpImage) (h : image.layers ≠ []) :
    ∃ st r, gimp_vtf_export env image cfg = some (st, r) ∧
      r.calls.length = image.layers.length ∧
      ∀ i, i < image.layers.length →
        r.calls[i]?.map SetImageCall.bytes =
          image.layers[image.layers.length - 1 - i]?.map Layer.pixels := by
  have hne : image.layers.reverse ≠ [] := by
    simpa using h
  obtain ⟨l, rest, hrev⟩ : ∃ l rest, image.layers.reverse = l :: rest := by
    cases hx : image.layers.reverse with
    | nil => exact absurd hx hne
    | cons a as => exact ⟨a, as, rfl⟩
  refine ⟨_, _, gimp_vtf_export_eq env cfg image l rest hrev, ?_, ?_⟩
  · show (callsOf env cfg.image_type 0 (l :: rest)).length = _
    rw [callsOf_length, ← hrev, List.length_reverse]
  · intro i hi
    show (callsOf env cfg.image_type 0 (l :: rest))[i]?.map SetImageCall.bytes = _
    rw [callsOf_getElem?, ← hrev, List.getElem?_reverse hi]
    cases hx : image.layers[image.layers.length - 1 - i]? <;> simp [mkCall]

theorem C7_export_reverses_layer_order_witness :
    ∃ st r,
      gimp_vtf_export allOkEnv
        { width := 1, height := 1, layers := [sampleLayer, sampleLayer2] }
        stdConfig = some (st, r) ∧
      r.calls.length = 2 ∧
      r.calls[0]?.map SetImageCall.bytes = some sampleLayer2.pixels := by
  obtain ⟨st, r, hr, hlen, hmap⟩ :=
    C7_export_reverses_layer_order allOkEnv stdConfig
      { width := 1, height := 1, layers := [sampleLayer, sampleLayer2] }
      (by simp)
  refine ⟨st, r, hr, hlen, ?_⟩
  have := hmap 0 (by decide)
  simpa using this

/-- C3: exporting a document with N ≥ 1 layers (given bottom-up as
`l :: rest`) with texture type Standard and re-importing the produced
container yields exactly N layers back, in the same order: the i-th re-import
layer (bottom-up) is decoded from frame i, face 0 of the container. -/
theorem C3_standard_roundtrip (env : ExportEnv) (cfg : ExportConfig)
    (l : Layer) (rest : List Layer)
    (hstd : cfg.image_type = VTFImageType.TYPE_STANDARD) :
    ∃ r, export_image env (l :: rest) cfg = some r ∧
      (load_image r.vtf.toSource).layers.length = (l :: rest).length ∧
      ∀ i, i < (l :: rest).length →
        (load_image r.vtf.toSource).layers.reverse[i]? =
          some { name := layerName (i + 1)
                 width := r.vtf.toSource.width
                 height := r.vtf.toSource.height
                 pixels := (r.vtf.toSource.getPlane i 0).getD [] } := by
  refine ⟨_, export_image_eq env cfg l rest, ?_, ?_⟩
  · rw [load_image_length]
    simp [exportOutcome, VTF.toSource, hstd]
  · intro i hi
    have hC : 0 < (exportOutcome env cfg l rest).vtf.toSource.faceCount := by
      simp [exportOutcome, VTF.toSource, hstd]
    have hk : i < (exportOutcome env cfg l rest).vtf.toSource.frameCount *
        (exportOutcome env cfg l rest).vtf.toSource.faceCount := by
      simpa [exportOutcome, VTF.toSource, hstd] using hi
    rw [load_image_bottomUp _ hC i hk]
    have hface : (exportOutcome env cfg l rest).vtf.toSource.faceCount = 1 := by
      simp [exportOutcome, VTF.toSource, hstd]
    simp [importedLayer, hface, Nat.div_one, Nat.mod_one]

theorem C3_standard_roundtrip_witness :
    ∃ r, export_image allOkEnv [sampleLayer, sampleLayer2] stdConfig = some r ∧
      (load_image r.vtf.toSource).layers.length = 2 ∧
      (load_image r.vtf.toSource).layers.reverse[1]? =
        some { name := layerName 2
               width := r.vtf.toSource.width
               height := r.vtf.toSource.height
               pixels := (r.vtf.toSource.getPlane 1 0).getD [] } := by
  obtain ⟨r, hr, hlen, hmap⟩ :=
    C3_standard_roundtrip allOkEnv stdConfig sampleLayer [sampleLayer2] rfl
  exact ⟨r, hr, hlen, hmap 1 (by decide)⟩

/-- C1 is false as stated: in an Environment Map export of a 257-layer
document, the C++ stores the face coordinate in a `uint8_t`, so layer index
256 is written to face 256 % 256 = 0 — the same coordinate as layer 0 — and
not to face 256.  The layer-to-coordinate mapping is therefore not duplicate
free for every export. -/
theorem C1_counterexample_envmap_face_wraps :
    (export_image allOkEnv layers257 envmapConfig).map
        (fun r => (r.calls[0]?.map (fun c => (c.frame, c.face)),
          r.calls[256]?.map (fun c => (c.frame, c.face)))) =
      some (some (0, 0), some (0, 0)) ∧
    (export_image allOkEnv layers257 envmapConfig).map
        (fun r => r.calls[256]?.map (fun c => (c.frame, c.face))) ≠
      some (some (0, 256)) := by
  have hd : layers257 = sampleLayer :: List.replicate 256 sampleLayer := rfl
  have hcalls : (exportOutcome allOkEnv envmapConfig sampleLayer
      (List.replicate 256 sampleLayer)).calls =
        callsOf allOkEnv envmapConfig.image_type 0
          (sampleLayer :: List.replicate 256 sampleLayer) := rfl
  have hrep : sampleLayer :: List.replicate 256 sampleLayer =
      List.replicate 257 sampleLayer := rfl
  rw [hd, export_image_eq]
  simp only [Option.map_some', hcalls, hrep, callsOf_getElem?,
    List.getElem?_replicate]
  simp [mkCall, envmapConfig, stdConfig]
  decide

/-- C1 (amended): a Standard export maps layer i to
(frame = i mod 2^16, face = 0) — the frame coordinate is a C `uint16_t` —
and sets the frame count to the layer count; an Environment Map export maps
layer i to (frame = 0, face = i mod 2^8) — the face coordinate is a C
`uint8_t` — and sets the face count to 6 when the layer count is below 7 and
to 7 otherwise; every layer gets exactly one `setImage` call, and the
layer-to-coordinate mapping is injective whenever the layer count is at most
2^16 (Standard) respectively 2^8 (Environment Map). -/
theorem C1_export_layer_coordinate_mapping (env : ExportEnv)
    (cfg : ExportConfig) (l : Layer) (rest : List Layer) :
    ∃ r, export_image env (l :: rest) cfg = some r ∧
      r.calls.length = (l :: rest).length ∧
      (cfg.image_type = VTFImageType.TYPE_STANDARD →
        r.vtf.frameCount = (l :: rest).length ∧
        ∀ i, i < (l :: rest).length →
          r.calls[i]?.map (fun c => (c.frame, c.face)) = some (i % 65536, 0)) ∧
      (cfg.image_type = VTFImageType.TYPE_ENVMAP →
        r.vtf.faceCount = (if (l :: rest).length < 7 then 6 else 7) ∧
        ∀ i, i < (l :: rest).length →
          r.calls[i]?.map (fun c => (c.frame, c.face)) = some (0, i % 256)) ∧
      ((l :: rest).length ≤
          (if cfg.image_type = VTFImageType.TYPE_STANDARD then 65536 else 256) →
        ∀ i j, i < (l :: rest).length → j < (l :: rest).length →
          r.calls[i]?.map (fun c => (c.frame, c.face)) =
            r.calls[j]?.map (fun c => (c.frame, c.face)) →
          i = j) := by
  refine ⟨_, export_image_eq env cfg l rest,
    callsOf_length env cfg.image_type (l :: rest) 0, ?_, ?_, ?_⟩
  · intro hstd
    refine ⟨by simp [exportOutcome, hstd], ?_⟩
    intro i hi
    show (callsOf env cfg.image_type 0 (l :: rest))[i]?.map _ = _
    rw [callsOf_getElem?, List.getElem?_eq_getElem hi]
    simp [mkCall, hstd]
  · intro henv
    constructor
    · have hne : cfg.image_type ≠ VTFImageType.TYPE_STANDARD := by
        rw [henv]; intro hx; cases hx
      simp only [exportOutcome, if_neg hne]
      split <;> split <;> omega
    · intro i hi
      show (callsOf env cfg.image_type 0 (l :: rest))[i]?.map _ = _
      rw [callsOf_getElem?, List.getElem?_eq_getElem hi]
      simp [mkCall, henv]
  · intro hbound i j hi hj heq
    simp only [exportOutcome] at heq
    rw [callsOf_getElem?, callsOf_getElem?, List.getElem?_eq_getElem hi,
      List.getElem?_eq_getElem hj] at heq
    by_cases hstd : cfg.image_type = VTFImageType.TYPE_STANDARD
    · rw [if_pos hstd] at hbound
      simp [mkCall, hstd, Prod.ext_iff] at heq
      omega
    · rw [if_neg hstd] at hbound
      simp [mkCall, hstd, Prod.ext_iff] at heq
      omega

theorem C1_export_layer_coordinate_mapping_witness :
    (∃ r, export_image allOkEnv [sampleLayer, sampleLayer2] stdConfig = some r ∧
      r.vtf.frameCount = 2 ∧
      r.calls[1]?.map (fun c => (c.frame, c.face)) = some (1 % 65536, 0)) ∧
    (∃ r, export_image allOkEnv [sampleLayer, sampleLayer2] envmapConfig =
        some r ∧
      r.vtf.faceCount = 6 ∧
      r.calls[1]?.map (fun c => (c.frame, c.face)) = some (0, 1 % 256)) := by
  constructor
  · obtain ⟨r, hr, _, hstd, _, _⟩ :=
      C1_export_layer_coordinate_mapping allOkEnv stdConfig sampleLayer
        [sampleLayer2]
    obtain ⟨hfc, hmap⟩ := hstd rfl
    exact ⟨r, hr, hfc, hmap 1 (by decide)⟩
  · obtain ⟨r, hr, _, _, henv, _⟩ :=
      C1_export_layer_coordinate_mapping allOkEnv envmapConfig sampleLayer
        [sampleLayer2]
    obtain ⟨hfc, hmap⟩ := henv rfl
    exact ⟨r, hr, hfc.trans (by decide), hmap 1 (by decide)⟩

/-- C8 is false as stated: a Volumetric export of a 257-layer document does
behave like an Environment Map export, but the non-Standard mapping sends
layer 256 to face 256 % 256 = 0 (the face coordinate is a C `uint8_t`), not
to face 256. -/
theorem C8_counterexample_volumetric_face_wraps :
    (export_image allOkEnv layers257 volumetricConfig).map
        (fun r => r.calls[256]?.map (fun c => (c.frame, c.face))) =
      some (some (0, 0)) ∧
    (export_image allOkEnv layers257 volumetricConfig).map
        (fun r => r.calls[256]?.map (fun c => (c.frame, c.face))) ≠
      some (some (0, 256)) := by
  have hd : layers257 = sampleLayer :: List.replicate 256 sampleLayer := rfl
  have hcalls : (exportOutcome allOkEnv volumetricConfig sampleLayer
      (List.replicate 256 sampleLayer)).calls =
        callsOf allOkEnv volumetricConfig.image_type 0
          (sampleLayer :: List.replicate 256 sampleLayer) := rfl
  have hrep : sampleLayer :: List.replicate 256 sampleLayer =
      List.replicate 257 sampleLayer := rfl
  rw [hd, export_image_eq]
  simp only [Option.map_some', hcalls, hrep, callsOf_getElem?,
    List.getElem?_replicate]
  simp [mkCall, volumetricConfig, stdConfig]
  decide

/-- C8 (amended): exporting with texture type Volumetric is identical to
exporting with Environment Map on every input, and any non-Standard texture
type maps layer i to (frame = 0, face = i mod 2^8) and drives the face count
from the layer count (6 below 7 layers, 7 otherwise); no separate volumetric
layout exists. -/
theorem C8_volumetric_equals_envmap (env : ExportEnv) (drawables : List Layer)
    (cfg : ExportConfig) :
    export_image env drawables
        { cfg with image_type := VTFImageType.TYPE_VOLUMETRIC } =
      export_image env drawables
        { cfg with image_type := VTFImageType.TYPE_ENVMAP } ∧
    (cfg.image_type ≠ VTFImageType.TYPE_STANDARD →
      ∀ l rest, drawables = l :: rest →
        ∃ r, export_image env drawables cfg = some r ∧
          r.vtf.faceCount = (if drawables.length < 7 then 6 else 7) ∧
          ∀ i, i < drawables.length →
            r.calls[i]?.map (fun c => (c.frame, c.face)) = some (0, i % 256)) := by
  constructor
  · cases drawables with
    | nil => rfl
    | cons l rest =>
        rw [export_image_eq, export_image_eq]
        simp [exportOutcome, callsOf_volumetric_eq_envmap]
  · intro hns l rest hd
    subst hd
    refine ⟨_, export_image_eq env cfg l rest, ?_, ?_⟩
    · simp only [exportOutcome, if_neg hns]
      split <;> split <;> omega
    · intro i hi
      show (callsOf env cfg.image_type 0 (l :: rest))[i]?.map _ = _
      rw [callsOf_getElem?, List.getElem?_eq_getElem hi]
      simp [mkCall, hns]

theorem C8_volumetric_equals_envmap_witness :
    export_image allOkEnv [sampleLayer, sampleLayer2]
        { volumetricConfig with image_type := VTFImageType.TYPE_VOLUMETRIC } =
      export_image allOkEnv [sampleLayer, sampleLayer2]
        { volumetricConfig with image_type := VTFImageType.TYPE_ENVMAP } ∧
    (∃ r, export_image allOkEnv [sampleLayer, sampleLayer2] volumetricConfig =
        some r ∧
      r.vtf.faceCount = 6 ∧
      r.calls[1]?.map (fun c => (c.frame, c.face)) = some (0, 1 % 256)) := by
  obtain ⟨hsame, hrest⟩ :=
    C8_volumetric_equals_envmap allOkEnv [sampleLayer, sampleLayer2]
      volumetricConfig
  refine ⟨hsame, ?_⟩
  obtain ⟨r, hr, hfc, hmap⟩ := hrest (by decide) sampleLayer [sampleLayer2] rfl
  exact ⟨r, hr, hfc.trans (by decide), hmap 1 (by decide)⟩
